import Mathlib

/-!
# Verification of the storefront client's cart and order-classification logic

Shallow embedding of the business logic of the e-commerce storefront client:
the order classifier of the unified orders page, the pending-payments page's
cancel operation, the 48-hour payment-expiry countdown, the per-product and
per-order shipping-days estimation, the promotional-price derivations, and the
cart-store operations (modelled from the spec where the store module is not in
the snapshot). Machine numbers are embedded as `Rat`/`Int`; JavaScript string
truthiness, `parseInt`, `Math.max` NaN propagation and `Math.round` are made
explicit.
-/

namespace Storefront

/-- Promotion variant tag: one of `2x1`, `3x1`, `3x2`, `discount`. -/
inductive PromoType where
  | twoForOne
  | threeForOne
  | threeForTwo
  | discount
deriving DecidableEq, Repr

/-- A promotion attached to a product (`types/index`): a variant tag and,
for `discount`, an optional total-price override. -/
structure Promotion where
  type : PromoType
  total_price : Option ℚ
deriving DecidableEq, Repr

/-- The product fields this client's logic reads. -/
structure Product where
  id : String
  name : String
  price : ℚ
  description : Option String
  shipping_days : Option String
  promotion : Option Promotion
deriving DecidableEq, Repr

/-- The order fields this client's logic reads or writes. -/
structure Order where
  id : String
  status : String
  payment_status : String
  payment_method : String
  created_at : String
  updated_at : String
  total : ℚ
deriving DecidableEq, Repr

/-! ## Order classifier (`loadOrders`, unified orders page) -/

/-- `loadOrders`' completed filter: `payment_status !== 'payment_pending' &&
!(payment_method === 'mercadopago' && payment_status === 'pending')`. -/
def isCompleted (o : Order) : Bool :=
  (o.payment_status != "payment_pending") &&
    !(o.payment_method == "mercadopago" && o.payment_status == "pending")

/-- `loadOrders`' pending filter: `payment_status === 'payment_pending' ||
(payment_method === 'mercadopago' && payment_status === 'pending')`. -/
def isPendingPayment (o : Order) : Bool :=
  (o.payment_status == "payment_pending") ||
    (o.payment_method == "mercadopago" && o.payment_status == "pending")

/-- `loadOrders` separates the fetched orders into the completed and pending
buckets with two `Array.filter` passes. -/
def classify (orders : List Order) : List Order × List Order :=
  (orders.filter isCompleted, orders.filter isPendingPayment)

/-- The backend query of `loadPendingOrders` (PendingPaymentsPage): rows with
`payment_method = 'mercadopago'` and `payment_status = 'pending'`. -/
def pendingPageFilter (o : Order) : Bool :=
  o.payment_method == "mercadopago" && o.payment_status == "pending"

lemma isPendingPayment_eq_not_isCompleted (o : Order) :
    isPendingPayment o = !(isCompleted o) := by
  simp only [isPendingPayment, isCompleted]
  cases h1 : (o.payment_status == "payment_pending") <;>
    cases h2 : (o.payment_method == "mercadopago" && o.payment_status == "pending") <;>
    simp_all [beq_iff_eq, beq_eq_false_iff_ne]

/-! ## Cancel operations -/

/-- `cancelOrder` on the unified orders page: `update({ status: 'cancelled' })`. -/
def cancelOrderUnified (o : Order) : Order :=
  { o with status := "cancelled" }

/-- `cancelOrder` on PendingPaymentsPage: `update({ status: 'cancelled',
payment_status: 'failed', updated_at: new Date().toISOString() })`;
the wall-clock timestamp is passed in as `now`. -/
def cancelOrderPendingPage (o : Order) (now : String) : Order :=
  { o with status := "cancelled", payment_status := "failed", updated_at := now }

/-! ## `getTimeRemaining` (unified orders page)

The source computes `diffMs = 48*60*60*1000 - (now - created)` in integer
milliseconds; we embed it as a function of the elapsed milliseconds
`now.getTime() - created.getTime()`. -/

/-- `getTimeRemaining`, as a function of the elapsed wall-clock milliseconds:
`diffMs <= 0` yields `'Expirado'`, otherwise
`` `${hours}h ${minutes}m restantes` `` with
`hours = Math.floor(diffMs / 3600000)` and
`minutes = Math.floor((diffMs % 3600000) / 60000)`. -/
def getTimeRemaining (elapsedMs : ℤ) : String :=
  let diffMs : ℤ := 48 * 60 * 60 * 1000 - elapsedMs
  if diffMs ≤ 0 then "Expirado"
  else
    let d : ℕ := diffMs.toNat
    let hours : ℕ := d / (1000 * 60 * 60)
    let minutes : ℕ := d % (1000 * 60 * 60) / (1000 * 60)
    toString hours ++ "h " ++ toString minutes ++ "m restantes"

/-! ## JavaScript primitives used by the shipping-days logic -/

/-- Value of a nonempty run of decimal digits (the `(\d+)` capture /
`parseInt` digit run). -/
def digitsVal (ds : List Char) : ℕ :=
  ds.foldl (fun a c => a * 10 + (c.toNat - ('0').toNat)) 0

/-- JavaScript `parseInt(s, 10)`: skip leading whitespace, read an optional
sign and a nonempty run of decimal digits; `none` models `NaN`. -/
def jsParseInt (s : String) : Option ℤ :=
  let cs := s.data.dropWhile (fun c => c = ' ' || c = '\t' || c = '\n' || c = '\r')
  match cs with
  | '-' :: rest =>
    let ds := rest.takeWhile Char.isDigit
    if ds.isEmpty then none else some (-(digitsVal ds : ℤ))
  | '+' :: rest =>
    let ds := rest.takeWhile Char.isDigit
    if ds.isEmpty then none else some (digitsVal ds : ℤ)
  | rest =>
    let ds := rest.takeWhile Char.isDigit
    if ds.isEmpty then none else some (digitsVal ds : ℤ)

/-- JavaScript `a || b` on numbers, where `none` models `NaN` and `0` is
falsy. -/
def jsOrNum (a b : Option ℤ) : Option ℤ :=
  match a with
  | none => b
  | some v => if v = 0 then b else some v

/-- JavaScript `Math.max` on two values, `none` modelling `NaN` (which
propagates). -/
def jsMax2 (a b : Option ℤ) : Option ℤ :=
  match a, b with
  | some x, some y => some (max x y)
  | _, _ => none

/-- JavaScript `Math.max(...xs)` over a spread list; the source only applies
it to nonempty arrays (the empty-order case returns early), so the `[]`
case is unreachable there. -/
def jsMaxList : List (Option ℤ) → Option ℤ
  | [] => none
  | x :: xs => xs.foldl jsMax2 x

/-- Rendering of a JavaScript number in a template literal, `none` printing
as `NaN`. -/
def jsNumToString (a : Option ℤ) : String :=
  match a with
  | none => "NaN"
  | some v => toString v

/-- Worker for `jsSetList`: keep each element not seen before, carrying the
set of already-seen elements. -/
def jsSetAux (seen : List String) : List String → List String
  | [] => []
  | x :: xs => if x ∈ seen then jsSetAux seen xs else x :: jsSetAux (x :: seen) xs

/-- `[...new Set(arr)]`: deduplication preserving first-occurrence order. -/
def jsSetList (l : List String) : List String :=
  jsSetAux [] l

/-- JavaScript `String.prototype.split` with a single-character separator,
on the character list: `"a-b".split('-') = ["a","b"]`, `"".split('-') =
[""]`, and a leading/trailing/doubled separator yields empty fields. -/
def splitOnChar (sep : Char) : List Char → List (List Char)
  | [] => [[]]
  | c :: cs =>
    if c = sep then [] :: splitOnChar sep cs
    else
      match splitOnChar sep cs with
      | [] => [[c]]
      | h :: t => (c :: h) :: t

/-! ## `getShippingDays` (ProductGrid and MyOrdersPage, identical code) -/

/-- Try to match `\[shipping_days:(\d+)\]` at the head of the character
list: the literal `[shipping_days:`, a nonempty digit run, then `]`;
returns the captured digits. -/
def shippingTagAt (cs : List Char) : Option (List Char) :=
  let pat := "[shipping_days:".data
  if cs.take pat.length = pat then
    let rest := cs.drop pat.length
    let ds := rest.takeWhile Char.isDigit
    if ds.isEmpty then none
    else
      match rest.drop ds.length with
      | ']' :: _ => some ds
      | _ => none
  else none

/-- Leftmost match of `\[shipping_days:(\d+)\]` (JavaScript
`String.prototype.match` with a non-global regex). -/
def scanShippingTag : List Char → Option (List Char)
  | [] => none
  | c :: cs =>
    match shippingTagAt (c :: cs) with
    | some ds => some ds
    | none => scanShippingTag cs

/-- `description.match(/\[shipping_days:(\d+)\]/)`, returning the first
capture group. -/
def extractShippingTag (d : String) : Option String :=
  (scanShippingTag d.data).map (fun ds => String.mk ds)

/-- The legacy fallback of `getShippingDays`: extract the tag from the
description when present, else the default `"3-5"`; an absent or empty
description is falsy and has no match, giving the default either way. -/
def shippingFromDescription (p : Product) : String :=
  match p.description with
  | some d =>
    match extractShippingTag d with
    | some ds => ds
    | none => "3-5"
  | none => "3-5"

/-- `getShippingDays(product)`: the truthy `shipping_days` field if set
(an empty string is falsy in JavaScript), else the description fallback. -/
def getShippingDays (p : Product) : String :=
  match p.shipping_days with
  | some s => if s = "" then shippingFromDescription p else s
  | none => shippingFromDescription p

/-! ## `getOrderEstimatedDays` (MyOrdersPage) -/

/-- The per-value numeric extraction inside `getOrderEstimatedDays`:
`days.includes('-') ? (parseInt(parts[1], 10) || parseInt(parts[0], 10))
: (parseInt(days, 10) || 5)`. -/
def dayUpper (days : String) : Option ℤ :=
  if days.data.contains '-' then
    let parts := (splitOnChar '-' days.data).map (fun cs => String.mk cs)
    jsOrNum (jsParseInt (parts.getD 1 "")) (jsParseInt (parts.getD 0 ""))
  else
    jsOrNum (jsParseInt days) (some 5)

/-- `getOrderEstimatedDays(order)` over the order items' products:
`"3-5"` for an empty order; the common resolved value when all items
agree; otherwise `` `${Math.max(3, maxDays - 2)}-${maxDays}` `` where
`maxDays` is `Math.max` of the per-item extractions. -/
def getOrderEstimatedDays (items : List Product) : String :=
  match items with
  | [] => "3-5"
  | p :: ps =>
    let shippingDaysArray := (p :: ps).map getShippingDays
    let maxDays := jsMaxList (shippingDaysArray.map dayUpper)
    let uniqueDays := jsSetList shippingDaysArray
    if uniqueDays.length = 1 then uniqueDays.headD "3-5"
    else
      jsNumToString (jsMax2 (some 3) (maxDays.map (fun v => v - 2))) ++ "-" ++
        jsNumToString maxDays

/-! ## Promotional pricing (ProductGrid) -/

/-- JavaScript `Math.round` on an exact rational: `Math.round(x)` is
`Math.floor(x + 0.5)`. -/
def jsRound (q : ℚ) : ℤ :=
  ⌊q + 1 / 2⌋

/-- `getPromotionalPrice(product)`: `null` without a promotion; the
promotion's `total_price` when the type is `'discount'` and `total_price`
is truthy (present and nonzero); `null` otherwise. -/
def getPromotionalPrice (p : Product) : Option ℚ :=
  match p.promotion with
  | none => none
  | some promo =>
    if promo.type = PromoType.discount then
      match promo.total_price with
      | some tp => if tp = 0 then none else some tp
      | none => none
    else none

/-- `getPromotionLabel(product)`: fixed labels for the quantity promotions;
for `'discount'` with a truthy `total_price`,
`` `${Math.round((1 - total_price / price) * 100)}% OFF` ``; `null`
otherwise. -/
def getPromotionLabel (p : Product) : Option String :=
  match p.promotion with
  | none => none
  | some promo =>
    match promo.type with
    | PromoType.twoForOne => some "Lleva 2, paga 1"
    | PromoType.threeForOne => some "Lleva 3, paga 1"
    | PromoType.threeForTwo => some "Lleva 3, paga 2"
    | PromoType.discount =>
      match promo.total_price with
      | some tp =>
        if tp = 0 then none
        else some (toString (jsRound ((1 - tp / p.price) * 100)) ++ "% OFF")
      | none => none

/-! ## Cart store

The cart store module (`src/stores/cartStore`) is not in the repository
snapshot — only its callers (`Cart.tsx`, `ProductGrid`) are — so its state
transitions and derived total are modelled from the spec, while the per-line
rendering below is embedded from `Cart.tsx` itself. -/

/-- A cart line: a product reference, a quantity, and an optional selected
color. -/
structure CartItem where
  product : Product
  quantity : ℕ
  selectedColor : Option String
deriving DecidableEq, Repr

/-- Modelled from the spec: the `unitPrice` of the cart store's derived
total, which is not in the snapshot — "the promotion's `total_price` when
the product has an active `discount`-type promotion, else the product's
base `price`". -/
def unitPrice (p : Product) : ℚ :=
  match p.promotion with
  | some promo =>
    if promo.type = PromoType.discount then promo.total_price.getD p.price
    else p.price
  | none => p.price

/-- Modelled from the spec: the cart store's derived `total`, which is not
in the snapshot — accumulated over the lines as
`unitPrice(line.product) * line.quantity`. -/
def cartTotal (items : List CartItem) : ℚ :=
  items.foldl (fun acc it => acc + unitPrice it.product * it.quantity) 0

/-- The per-line price `Cart.tsx` renders (the non-struck-through figure):
for a `discount` promotion, `promotion.total_price * quantity` (`none`
models the `NaN` an absent `total_price` would render), else
`price * quantity`. -/
def lineDisplayedPrice (it : CartItem) : Option ℚ :=
  match it.product.promotion with
  | some promo =>
    if promo.type = PromoType.discount then
      promo.total_price.map (fun tp => tp * it.quantity)
    else some (it.product.price * it.quantity)
  | none => some (it.product.price * it.quantity)

/-- Modelled from the spec: the cart store's `addItem(product, quantity,
selectedColor?)`, which is not in the snapshot — "if a line with the same
(product id, selectedColor) exists, increment its quantity by `quantity`;
otherwise append a new line". -/
def addItem (items : List CartItem) (p : Product) (q : ℕ)
    (color : Option String) : List CartItem :=
  if items.any (fun it => it.product.id == p.id && it.selectedColor == color) then
    items.map (fun it =>
      if it.product.id = p.id ∧ it.selectedColor = color then
        { it with quantity := it.quantity + q }
      else it)
  else items ++ [⟨p, q, color⟩]

/-! ## Concrete sample data used in counterexamples and witnesses -/

/-- An order awaiting a payment redirect gone stale: the backend marks it
`payment_status = 'payment_pending'` while it was placed cash-on-delivery. -/
def ordStalePayment : Order :=
  ⟨"ord-1", "pending", "payment_pending", "cash_on_delivery", "t0", "t0", 100⟩

/-- A cash-on-delivery order still awaiting fulfillment. -/
def ordCashPending : Order :=
  ⟨"ord-2", "pending", "pending", "cash_on_delivery", "t0", "t0", 50⟩

/-- A MercadoPago order whose payment was never completed. -/
def ordMpPending : Order :=
  ⟨"ord-3", "pending", "pending", "mercadopago", "t0", "t0", 75⟩

/-! ## Shared lemmas about the classifier -/

lemma count_filter_split (l : List Order) (o : Order) :
    (l.filter isCompleted).count o + (l.filter isPendingPayment).count o =
      l.count o := by
  induction l with
  | nil => rfl
  | cons x xs ih =>
    by_cases hx : isCompleted x = true
    · have hp : isPendingPayment x = false := by
        rw [isPendingPayment_eq_not_isCompleted, hx]; rfl
      simp only [List.filter_cons, hx, hp, if_true, if_false, List.count_cons,
        Bool.false_eq_true]
      omega
    · have hx2 : isCompleted x = false := by simpa using hx
      have hp : isPendingPayment x = true := by
        rw [isPendingPayment_eq_not_isCompleted, hx2]; rfl
      simp only [List.filter_cons, hx2, hp, if_true, if_false, List.count_cons,
        Bool.false_eq_true]
      omega

/-! ## C1: payment-pending classification -/

/-- C1 fails as stated: the unified orders page also classifies an order
with `payment_status = 'payment_pending'` as payment-pending even though
its `payment_status` is not `'pending'` and its `payment_method` is not
`'mercadopago'` — the stated "if and only if" is violated at
`ordStalePayment`, which `classify` places in the pending bucket. -/
theorem c1_iff_counterexample :
    isPendingPayment ordStalePayment = true ∧
    ¬(ordStalePayment.payment_status = "pending" ∧
      ordStalePayment.payment_method = "mercadopago") ∧
    classify [ordStalePayment] = ([], [ordStalePayment]) := by
  refine ⟨rfl, by decide, ?_⟩
  rfl

/-- C1 (amended): an order is classified as payment-pending if and only if
`payment_status = 'payment_pending'` OR (`payment_status = 'pending'` AND
`payment_method = 'mercadopago'`); in particular every order with
`payment_method = 'cash_on_delivery'` and `payment_status = 'pending'` is
placed in the completed bucket and not in the pending bucket; the
PendingPaymentsPage backend query, by contrast, selects exactly the orders
with `payment_status = 'pending'` and `payment_method = 'mercadopago'`. -/
theorem c1_pending_classification :
    (∀ o : Order, isPendingPayment o = true ↔
      (o.payment_status = "payment_pending" ∨
        (o.payment_status = "pending" ∧ o.payment_method = "mercadopago"))) ∧
    (∀ o : Order, pendingPageFilter o = true ↔
      (o.payment_status = "pending" ∧ o.payment_method = "mercadopago")) ∧
    (∀ (orders : List Order) (o : Order), o ∈ orders →
      o.payment_method = "cash_on_delivery" → o.payment_status = "pending" →
      o ∈ (classify orders).1 ∧ o ∉ (classify orders).2) := by
  refine ⟨?_, ?_, ?_⟩
  · intro o
    simp only [isPendingPayment, Bool.or_eq_true, Bool.and_eq_true, beq_iff_eq]
    tauto
  · intro o
    simp only [pendingPageFilter, Bool.and_eq_true, beq_iff_eq]
    tauto
  · intro orders o ho hmethod hstatus
    have hc : isCompleted o = true := by
      simp [isCompleted, hmethod, hstatus]
    have hp : isPendingPayment o = false := by
      rw [isPendingPayment_eq_not_isCompleted, hc]; rfl
    refine ⟨List.mem_filter.mpr ⟨ho, hc⟩, fun hmem => ?_⟩
    have := (List.mem_filter.mp hmem).2
    rw [hp] at this
    exact Bool.false_ne_true this

/-- Witness for `c1_pending_classification` at the cash-on-delivery
pending order. -/
theorem c1_pending_classification_witness :
    ordCashPending ∈ (classify [ordCashPending]).1 ∧
    ordCashPending ∉ (classify [ordCashPending]).2 :=
  c1_pending_classification.2.2 [ordCashPending] ordCashPending
    (List.mem_singleton.mpr rfl) rfl rfl

/-! ## C2: the classifier partitions its input stably -/

/-- C2: `classify` partitions its input — every order of the input list
lands in exactly one of the two buckets (with multiplicity: the two
buckets' counts of any order sum to the input's count), and each bucket is
a sublist of the input, preserving relative order. -/
theorem c2_classify_partition (orders : List Order) :
    (∀ o ∈ orders,
      (o ∈ (classify orders).1 ∧ o ∉ (classify orders).2) ∨
      (o ∈ (classify orders).2 ∧ o ∉ (classify orders).1)) ∧
    (∀ o : Order,
      (classify orders).1.count o + (classify orders).2.count o =
        orders.count o) ∧
    (classify orders).1.Sublist orders ∧ (classify orders).2.Sublist orders := by
  refine ⟨?_, fun o => count_filter_split orders o,
    List.filter_sublist orders, List.filter_sublist orders⟩
  intro o ho
  by_cases hc : isCompleted o = true
  · left
    have hp : isPendingPayment o = false := by
      rw [isPendingPayment_eq_not_isCompleted, hc]; rfl
    refine ⟨List.mem_filter.mpr ⟨ho, hc⟩, fun hmem => ?_⟩
    have := (List.mem_filter.mp hmem).2
    rw [hp] at this
    exact Bool.false_ne_true this
  · right
    have hc2 : isCompleted o = false := by simpa using hc
    have hp : isPendingPayment o = true := by
      rw [isPendingPayment_eq_not_isCompleted, hc2]; rfl
    refine ⟨List.mem_filter.mpr ⟨ho, hp⟩, fun hmem => ?_⟩
    have := (List.mem_filter.mp hmem).2
    rw [hc2] at this
    exact Bool.false_ne_true this

/-- Witness for `c2_classify_partition` on a concrete two-order list. -/
theorem c2_classify_partition_witness :
    (ordMpPending ∈ (classify [ordCashPending, ordMpPending]).2 ∧
      ordMpPending ∉ (classify [ordCashPending, ordMpPending]).1) ∨
    (ordMpPending ∈ (classify [ordCashPending, ordMpPending]).1 ∧
      ordMpPending ∉ (classify [ordCashPending, ordMpPending]).2) :=
  ((c2_classify_partition [ordCashPending, ordMpPending]).1 ordMpPending
    (by simp)).symm

/-! ## C10: the two cancel operations and their frame -/

/-- C10: cancelling from PendingPaymentsPage updates exactly `status` (to
`'cancelled'`), `payment_status` (to `'failed'`) and `updated_at` (to the
current timestamp), while cancelling from the unified orders page updates
only `status` and leaves `payment_status` (and every other field)
unchanged; consequently a MercadoPago order with `payment_status =
'pending'` still satisfies the payment-pending predicate after the unified
cancel, but not after the PendingPaymentsPage cancel. -/
theorem c10_cancel_frame (o : Order) (now : String) :
    (cancelOrderPendingPage o now).status = "cancelled" ∧
    (cancelOrderPendingPage o now).payment_status = "failed" ∧
    (cancelOrderPendingPage o now).updated_at = now ∧
    (cancelOrderPendingPage o now).id = o.id ∧
    (cancelOrderPendingPage o now).payment_method = o.payment_method ∧
    (cancelOrderPendingPage o now).created_at = o.created_at ∧
    (cancelOrderPendingPage o now).total = o.total ∧
    (cancelOrderUnified o).status = "cancelled" ∧
    (cancelOrderUnified o).payment_status = o.payment_status ∧
    (cancelOrderUnified o).payment_method = o.payment_method ∧
    (cancelOrderUnified o).updated_at = o.updated_at ∧
    (cancelOrderUnified o).created_at = o.created_at ∧
    (cancelOrderUnified o).id = o.id ∧
    (cancelOrderUnified o).total = o.total ∧
    (o.payment_method = "mercadopago" → o.payment_status = "pending" →
      isPendingPayment (cancelOrderUnified o) = true ∧
      isPendingPayment (cancelOrderPendingPage o now) = false) := by
  refine ⟨rfl, rfl, rfl, rfl, rfl, rfl, rfl, rfl, rfl, rfl, rfl, rfl, rfl, rfl,
    fun hm hp => ⟨?_, ?_⟩⟩
  · simp [isPendingPayment, cancelOrderUnified, hm, hp]
  · simp [isPendingPayment, cancelOrderPendingPage]

/-- Witness for `c10_cancel_frame` at the concrete MercadoPago pending
order. -/
theorem c10_cancel_frame_witness :
    isPendingPayment (cancelOrderUnified ordMpPending) = true ∧
    isPendingPayment (cancelOrderPendingPage ordMpPending "t1") = false :=
  (c10_cancel_frame ordMpPending "t1").2.2.2.2.2.2.2.2.2.2.2.2.2.2 rfl rfl

/-! ## C4: the countdown at 47h59m -/

/-- C4 fails as stated: 47 hours and 59 minutes after creation, one minute
of the 48-hour window remains, so `getTimeRemaining` returns the
zero-hour one-minute string — not a 59-minute string (in either the
spec's English rendering or the code's Spanish one). -/
theorem c4_countdown_counterexample :
    getTimeRemaining ((47 * 60 + 59) * 60 * 1000) ≠ "0h 59m remaining" ∧
    getTimeRemaining ((47 * 60 + 59) * 60 * 1000) ≠ "0h 59m restantes" := by
  constructor <;> decide

/-- C4 (amended): for an order created 47 hours and 59 minutes before the
current time, `getTimeRemaining` returns `"0h 1m restantes"` — zero hours
and the one remaining minute of the 48-hour window (boundary at zero, not
negative). -/
theorem c4_countdown_at_47h59m :
    getTimeRemaining ((47 * 60 + 59) * 60 * 1000) = "0h 1m restantes" := by
  decide

/-! ## C5: the 48-hour expiry window -/

/-- C5: `getTimeRemaining` computes a fixed 48-hour window from creation:
once 48 hours or more have elapsed (including exactly 48 hours) it returns
the expired string, and otherwise a string of the form
`"<hours>h <minutes>m restantes"` with natural-number (hence non-negative)
hour and minute components. -/
theorem c5_expiry_window (elapsedMs : ℤ) :
    (48 * 60 * 60 * 1000 ≤ elapsedMs →
      getTimeRemaining elapsedMs = "Expirado") ∧
    (elapsedMs < 48 * 60 * 60 * 1000 →
      ∃ h m : ℕ, getTimeRemaining elapsedMs =
        toString h ++ "h " ++ toString m ++ "m restantes") := by
  have hbody : getTimeRemaining elapsedMs =
      if (48 * 60 * 60 * 1000 - elapsedMs : ℤ) ≤ 0 then "Expirado"
      else
        toString ((48 * 60 * 60 * 1000 - elapsedMs : ℤ).toNat /
            (1000 * 60 * 60)) ++
          "h " ++
          toString ((48 * 60 * 60 * 1000 - elapsedMs : ℤ).toNat %
              (1000 * 60 * 60) / (1000 * 60)) ++
          "m restantes" := rfl
  constructor
  · intro hle
    rw [hbody, if_pos (by omega)]
  · intro hlt
    refine ⟨(48 * 60 * 60 * 1000 - elapsedMs).toNat / (1000 * 60 * 60),
      (48 * 60 * 60 * 1000 - elapsedMs).toNat % (1000 * 60 * 60) / (1000 * 60),
      ?_⟩
    rw [hbody, if_neg (by omega)]

/-- Witness for `c5_expiry_window` at exactly 48 hours and at 47h59m. -/
theorem c5_expiry_window_witness :
    getTimeRemaining (48 * 60 * 60 * 1000) = "Expirado" ∧
    ∃ h m : ℕ, getTimeRemaining ((47 * 60 + 59) * 60 * 1000) =
      toString h ++ "h " ++ toString m ++ "m restantes" :=
  ⟨(c5_expiry_window (48 * 60 * 60 * 1000)).1 (by decide),
    (c5_expiry_window ((47 * 60 + 59) * 60 * 1000)).2 (by decide)⟩

/-! ## C7: per-product shipping-days precedence -/

/-- C7: `getShippingDays` resolves with this precedence: a truthy
`shipping_days` field (present and nonempty) is returned as-is; otherwise
a `[shipping_days:<digits>]` match in the description yields the extracted
digits; otherwise the default `"3-5"`. -/
theorem c7_shipping_days_precedence (p : Product) :
    (∀ s, p.shipping_days = some s → s ≠ "" → getShippingDays p = s) ∧
    ((p.shipping_days = none ∨ p.shipping_days = some "") →
      ∀ d ds, p.description = some d → extractShippingTag d = some ds →
        getShippingDays p = ds) ∧
    ((p.shipping_days = none ∨ p.shipping_days = some "") →
      (p.description = none ∨
        ∃ d, p.description = some d ∧ extractShippingTag d = none) →
      getShippingDays p = "3-5") := by
  refine ⟨?_, ?_, ?_⟩
  · intro s hs hne
    simp [getShippingDays, hs, hne]
  · intro hsd d ds hd hex
    rcases hsd with h | h <;>
      simp [getShippingDays, shippingFromDescription, h, hd, hex]
  · intro hsd hfb
    have hfrom : shippingFromDescription p = "3-5" := by
      rcases hfb with hf | ⟨d, hd, hex⟩
      · simp [shippingFromDescription, hf]
      · simp [shippingFromDescription, hd, hex]
    rcases hsd with h | h <;> simp [getShippingDays, h, hfrom]

/-- Witness for `c7_shipping_days_precedence`: the explicit field wins on
one product, the description tag on a second, the default on a third. -/
theorem c7_shipping_days_precedence_witness :
    getShippingDays ⟨"a", "A", 10, none, some "3-5", none⟩ = "3-5" ∧
    getShippingDays
      ⟨"c", "C", 10, some "fast [shipping_days:12] item", none, none⟩ = "12" ∧
    getShippingDays ⟨"d", "D", 10, some "plain", some "", none⟩ = "3-5" :=
  ⟨(c7_shipping_days_precedence _).1 "3-5" rfl (by decide),
    (c7_shipping_days_precedence _).2.1 (Or.inl rfl)
      "fast [shipping_days:12] item" "12" rfl (by decide),
    (c7_shipping_days_precedence _).2.2 (Or.inr rfl)
      (Or.inr ⟨"plain", rfl, by decide⟩)⟩

/-! ## C6: per-order estimated shipping days -/

lemma jsSetAux_all_seen (xs : List String) :
    ∀ seen, (∀ y ∈ xs, y ∈ seen) → jsSetAux seen xs = [] := by
  induction xs with
  | nil => intro seen _; rfl
  | cons z zs ih =>
    intro seen h
    simp only [jsSetAux]
    rw [if_pos (h z (List.mem_cons_self z zs))]
    exact ih seen (fun y hy => h y (List.mem_cons_of_mem z hy))

lemma jsSetAux_ne_nil (y : String) (xs : List String) :
    ∀ seen, y ∈ xs → y ∉ seen → jsSetAux seen xs ≠ [] := by
  induction xs with
  | nil => intro seen hy _; cases hy
  | cons z zs ih =>
    intro seen hy hns
    simp only [jsSetAux]
    by_cases hz : z ∈ seen
    · rw [if_pos hz]
      refine ih seen ?_ hns
      rcases List.mem_cons.mp hy with rfl | h
      · exact absurd hz hns
      · exact h
    · rw [if_neg hz]
      simp

lemma jsSetList_const (x : String) (xs : List String) (h : ∀ y ∈ xs, y = x) :
    jsSetList (x :: xs) = [x] := by
  show jsSetAux [] (x :: xs) = [x]
  simp only [jsSetAux]
  rw [if_neg (List.not_mem_nil x),
    jsSetAux_all_seen xs [x] (fun y hy => by rw [h y hy]; exact List.mem_singleton.mpr rfl)]

lemma jsSetList_length_ne_one (x : String) (xs : List String)
    (h : ∃ y ∈ xs, y ≠ x) : (jsSetList (x :: xs)).length ≠ 1 := by
  rcases h with ⟨y, hy, hne⟩
  show (jsSetAux [] (x :: xs)).length ≠ 1
  simp only [jsSetAux]
  rw [if_neg (List.not_mem_nil x)]
  have hnn : jsSetAux [x] xs ≠ [] :=
    jsSetAux_ne_nil y xs [x] hy (by simp [hne])
  simp only [List.length_cons, ne_eq, Nat.add_left_eq_self,
    List.length_eq_zero]
  exact hnn

/-- The branch of `getOrderEstimatedDays` for a nonempty item list,
written out. -/
lemma getOrderEstimatedDays_cons (p : Product) (ps : List Product) :
    getOrderEstimatedDays (p :: ps) =
      (if (jsSetList ((p :: ps).map getShippingDays)).length = 1 then
        (jsSetList ((p :: ps).map getShippingDays)).headD "3-5"
      else
        jsNumToString (jsMax2 (some 3)
          ((jsMaxList (((p :: ps).map getShippingDays).map dayUpper)).map
            (fun v => v - 2))) ++ "-" ++
          jsNumToString
            (jsMaxList (((p :: ps).map getShippingDays).map dayUpper))) := rfl

/-- C6: when every order item resolves to the same shipping-days value,
`getOrderEstimatedDays` returns that common value; when the items
disagree and each resolved value parses to a number, it returns the
synthesized range `` `${Math.max(3, maxDays - 2)}-${maxDays}` `` whose
upper bound is exactly `maxDays`, the maximum upper bound extracted from
the items' values; in particular two items reporting `"3-5"` and `"7"`
yield `"5-7"`, reflecting the maximum 7. -/
theorem c6_order_estimated_days :
    (∀ (p : Product) (ps : List Product),
      (∀ q ∈ ps, getShippingDays q = getShippingDays p) →
      getOrderEstimatedDays (p :: ps) = getShippingDays p) ∧
    (∀ (p : Product) (ps : List Product) (M : ℤ),
      (∃ q ∈ ps, getShippingDays q ≠ getShippingDays p) →
      jsMaxList (((p :: ps).map getShippingDays).map dayUpper) = some M →
      getOrderEstimatedDays (p :: ps) =
        toString (max 3 (M - 2)) ++ "-" ++ toString M) ∧
    getOrderEstimatedDays
      [⟨"a", "A", 10, none, some "3-5", none⟩,
        ⟨"b", "B", 10, none, some "7", none⟩] = "5-7" := by
  refine ⟨?_, ?_, by decide⟩
  · intro p ps h
    have hall : ∀ y ∈ ps.map getShippingDays, y = getShippingDays p := by
      intro y hy
      rcases List.mem_map.mp hy with ⟨q, hq, rfl⟩
      exact h q hq
    have hset : jsSetList ((p :: ps).map getShippingDays) =
        [getShippingDays p] := by
      rw [List.map_cons]
      exact jsSetList_const _ _ hall
    rw [getOrderEstimatedDays_cons, hset]
    rfl
  · intro p ps M hdis hmax
    have hne : (jsSetList ((p :: ps).map getShippingDays)).length ≠ 1 := by
      rw [List.map_cons]
      refine jsSetList_length_ne_one _ _ ?_
      rcases hdis with ⟨q, hq, hqne⟩
      exact ⟨getShippingDays q, List.mem_map.mpr ⟨q, hq, rfl⟩, hqne⟩
    rw [getOrderEstimatedDays_cons, if_neg hne, hmax]
    rfl

/-- Witness for `c6_order_estimated_days` on concrete item lists: an
agreeing pair and a disagreeing pair. -/
theorem c6_order_estimated_days_witness :
    getOrderEstimatedDays
      [⟨"a", "A", 10, none, some "3-5", none⟩,
        ⟨"a2", "A2", 12, none, some "3-5", none⟩] = "3-5" ∧
    getOrderEstimatedDays
      [⟨"e", "E", 10, none, some "2", none⟩,
        ⟨"f", "F", 10, none, some "10", none⟩] =
      toString (max 3 ((10 : ℤ) - 2)) ++ "-" ++ toString (10 : ℤ) :=
  ⟨c6_order_estimated_days.1 ⟨"a", "A", 10, none, some "3-5", none⟩
      [⟨"a2", "A2", 12, none, some "3-5", none⟩] (by decide),
    c6_order_estimated_days.2.1 ⟨"e", "E", 10, none, some "2", none⟩
      [⟨"f", "F", 10, none, some "10", none⟩] 10
      ⟨⟨"f", "F", 10, none, some "10", none⟩, by simp, by decide⟩
      (by decide)⟩

/-! ## C9: promotional price and label -/

/-- C9: `getPromotionalPrice` returns the promotion's `total_price` exactly
when the product carries a `discount`-type promotion whose `total_price`
is set (present and nonzero, per JavaScript truthiness); every other case
— including the `2x1`/`3x1`/`3x2` types — yields no promotional price; and
for such a `discount` promotion `getPromotionLabel` is the percentage-off
label whose percentage is `round((1 - total_price / price) * 100)`. -/
theorem c9_promotion_derivations :
    (∀ (p : Product) (tp : ℚ), getPromotionalPrice p = some tp ↔
      ∃ promo, p.promotion = some promo ∧ promo.type = PromoType.discount ∧
        promo.total_price = some tp ∧ tp ≠ 0) ∧
    (∀ (p : Product) (promo : Promotion), p.promotion = some promo →
      promo.type ≠ PromoType.discount → getPromotionalPrice p = none) ∧
    (∀ (p : Product) (promo : Promotion) (tp : ℚ), p.promotion = some promo →
      promo.type = PromoType.discount → promo.total_price = some tp →
      tp ≠ 0 →
      getPromotionLabel p =
        some (toString (jsRound ((1 - tp / p.price) * 100)) ++ "% OFF")) := by
  refine ⟨?_, ?_, ?_⟩
  · intro p tp
    constructor
    · intro h
      cases hpr : p.promotion with
      | none => simp [getPromotionalPrice, hpr] at h
      | some promo =>
        by_cases ht : promo.type = PromoType.discount
        · cases htp : promo.total_price with
          | none => simp [getPromotionalPrice, hpr, ht, htp] at h
          | some v =>
            by_cases hv : v = 0
            · simp [getPromotionalPrice, hpr, ht, htp, hv] at h
            · simp only [getPromotionalPrice, hpr, ht, htp, if_true, if_pos,
                if_neg hv] at h
              simp only [Option.some.injEq] at h
              subst h
              exact ⟨promo, rfl, ht, htp, hv⟩
        · simp [getPromotionalPrice, hpr, ht] at h
    · rintro ⟨promo, hpr, ht, htp, hne⟩
      simp [getPromotionalPrice, hpr, ht, htp, hne]
  · intro p promo hpr ht
    simp [getPromotionalPrice, hpr, ht]
  · intro p promo tp hpr ht htp hne
    simp [getPromotionLabel, hpr, ht, htp, hne]

/-- Witness for `c9_promotion_derivations` at a product priced 100 with a
discount promotion totalling 70. -/
theorem c9_promotion_derivations_witness :
    getPromotionalPrice
      ⟨"p1", "P1", 100, none, none, some ⟨PromoType.discount, some 70⟩⟩ =
      some 70 ∧
    getPromotionLabel
      ⟨"p1", "P1", 100, none, none, some ⟨PromoType.discount, some 70⟩⟩ =
      some (toString (jsRound ((1 - (70 : ℚ) / 100) * 100)) ++ "% OFF") :=
  ⟨(c9_promotion_derivations.1 _ 70).mpr
      ⟨⟨PromoType.discount, some 70⟩, rfl, rfl, rfl, by norm_num⟩,
    c9_promotion_derivations.2.2 _ ⟨PromoType.discount, some 70⟩ 70 rfl rfl
      rfl (by norm_num)⟩

/-! ## C3: the derived cart total -/

lemma foldl_add_eq_sum (f : CartItem → ℚ) (items : List CartItem) :
    ∀ acc : ℚ, items.foldl (fun a it => a + f it) acc =
      acc + (items.map f).sum := by
  induction items with
  | nil => intro acc; simp
  | cons x xs ih =>
    intro acc
    simp only [List.foldl_cons, List.map_cons, List.sum_cons, ih,
      add_assoc]

/-- C3: the cart total is the sum over the lines of
`unitPrice(line.product) * line.quantity`; a non-`discount` promotion
(`2x1`/`3x1`/`3x2`) leaves `unitPrice` at the base price and so does not
alter the total; the per-line figure `Cart.tsx` renders agrees with
`unitPrice * quantity` on every `discount` line with a `total_price`; and
the one-line cart with price 100, discount `total_price` 70 and quantity
2 totals 140. -/
theorem c3_cart_total :
    (∀ items : List CartItem,
      cartTotal items =
        (items.map (fun it => unitPrice it.product * (it.quantity : ℚ))).sum) ∧
    (∀ (p : Product) (promo : Promotion), p.promotion = some promo →
      promo.type ≠ PromoType.discount → unitPrice p = p.price) ∧
    (∀ (it : CartItem) (promo : Promotion) (tp : ℚ),
      it.product.promotion = some promo → promo.type = PromoType.discount →
      promo.total_price = some tp →
      lineDisplayedPrice it = some (unitPrice it.product * it.quantity) ∧
      unitPrice it.product = tp) ∧
    cartTotal [⟨⟨"p1", "P1", 100, none, none,
      some ⟨PromoType.discount, some 70⟩⟩, 2, none⟩] = 140 := by
  refine ⟨?_, ?_, ?_, by simp [cartTotal, unitPrice]; norm_num⟩
  · intro items
    have := foldl_add_eq_sum
      (fun it => unitPrice it.product * (it.quantity : ℚ)) items 0
    simpa [cartTotal] using this
  · intro p promo hpr ht
    simp [unitPrice, hpr, ht]
  · intro it promo tp hpr ht htp
    refine ⟨?_, ?_⟩
    · simp [lineDisplayedPrice, unitPrice, hpr, ht, htp]
    · simp [unitPrice, hpr, ht, htp]

/-- Witness for `c3_cart_total`: a `2x1` promotion leaves the unit price
at the base price, and a discount line renders its promotional figure. -/
theorem c3_cart_total_witness :
    unitPrice ⟨"p2", "P2", 30, none, none,
      some ⟨PromoType.twoForOne, none⟩⟩ = 30 ∧
    lineDisplayedPrice ⟨⟨"p1", "P1", 100, none, none,
        some ⟨PromoType.discount, some 70⟩⟩, 2, none⟩ =
      some (unitPrice ⟨"p1", "P1", 100, none, none,
        some ⟨PromoType.discount, some 70⟩⟩ * (2 : ℕ)) :=
  ⟨c3_cart_total.2.1 _ ⟨PromoType.twoForOne, none⟩ rfl (by decide),
    (c3_cart_total.2.2.1 ⟨⟨"p1", "P1", 100, none, none,
      some ⟨PromoType.discount, some 70⟩⟩, 2, none⟩
      ⟨PromoType.discount, some 70⟩ 70 rfl rfl rfl).1⟩

/-! ## C8: the cart-line uniqueness key -/

/-- C8: `addItem` keys cart lines on (product id, selectedColor): adding
the same product twice with the same (or absent) color yields one line
whose quantity is the sum of the two quantities, while adding it with two
different colors yields two distinct lines. -/
theorem c8_addItem_key :
    (∀ (p : Product) (q1 q2 : ℕ) (c : Option String),
      addItem (addItem [] p q1 c) p q2 c = [⟨p, q1 + q2, c⟩]) ∧
    (∀ (p : Product) (q1 q2 : ℕ) (c1 c2 : Option String), c1 ≠ c2 →
      addItem (addItem [] p q1 c1) p q2 c2 =
        [⟨p, q1, c1⟩, ⟨p, q2, c2⟩]) := by
  constructor
  · intro p q1 q2 c
    simp [addItem]
  · intro p q1 q2 c1 c2 hne
    simp [addItem, hne]

/-- Witness for `c8_addItem_key`: two colors of one product make two
lines. -/
theorem c8_addItem_key_witness :
    addItem (addItem [] ⟨"a", "A", 10, none, some "3-5", none⟩ 1
        (some "rojo")) ⟨"a", "A", 10, none, some "3-5", none⟩ 2
        (some "azul") =
      [⟨⟨"a", "A", 10, none, some "3-5", none⟩, 1, some "rojo"⟩,
        ⟨⟨"a", "A", 10, none, some "3-5", none⟩, 2, some "azul"⟩] :=
  c8_addItem_key.2 _ 1 2 (some "rojo") (some "azul") (by decide)

end Storefront
